import Mathlib

/-!
# Verification of the HIPAA Identifier Detector app (`src/app.py`)

A shallow embedding of the single-file Streamlit application.  The app has
three pieces of behaviour:

* a prompt builder: a Python f-string interpolating the user text into a
  fixed instructional template (`detect_hipaa_identifiers`, the `prompt = f"""..."""`
  part);
* a model-client adapter: one call to `model.generate_content(prompt)` whose
  result text is stripped, with a catch-all `except` turning any exception
  into a diagnostic string (`detect_hipaa_identifiers`, the `try/except` part);
* UI glue: a startup credential check (`genai.configure` guarded by
  `try/except` + `st.stop()`) and a button handler that warns on
  empty/whitespace-only input and otherwise invokes the flow.

The external service is modelled as a function `String → Except String String`:
`Except.ok r` models a successful call whose `response.text` is `r`, and
`Except.error e` models the call raising an exception whose string rendering
(`{e}` in the f-string) is `e`.  Outbound calls are made observable through an
explicit `World` state holding the log of prompts sent, threaded through
`generate_content`.
-/

/-- The characters removed by Python's no-argument `str.strip()`, i.e. those
for which `str.isspace()` holds: ASCII whitespace `\t \n \v \f \r` and space,
the file/group/record/unit separators `\x1c`-`\x1f`, next line `\x85`,
no-break space `\xa0`, Ogham space mark U+1680, the Unicode space separators
U+2000-U+200A, and U+2028, U+2029, U+202F, U+205F, U+3000. -/
def isPyWhitespace (c : Char) : Bool :=
  let n := c.toNat
  (0x9 ≤ n && n ≤ 0xd) || (0x1c ≤ n && n ≤ 0x1f) || n = 0x20 || n = 0x85 ||
    n = 0xa0 || n = 0x1680 || (0x2000 ≤ n && n ≤ 0x200a) || n = 0x2028 ||
    n = 0x2029 || n = 0x202f || n = 0x205f || n = 0x3000

/-- Python's `s.strip()`: remove leading and trailing whitespace. -/
def pyStrip (s : String) : String :=
  String.mk (((s.data.dropWhile isPyWhitespace).reverse.dropWhile isPyWhitespace).reverse)

/-- The literal text of the f-string in `detect_hipaa_identifiers` that comes
before the `---` delimiter preceding the interpolated `{text_input}`. -/
def promptBody : String :=
"
I want to detect any of the 18 HIPAA identifiers under Section 164.514(a) of the HIPAA Privacy Rules for an individual or of relatives, employers, or household members of the individual. Here are the identifiers:

“1. Names;
2. All geographical subdivisions smaller than a State, including street address, city, county, precinct, zip code, and their equivalent geocodes, except for the initial three digits of a zip code if specific census conditions are met.
3. All elements of dates (except year) for dates directly related to an individual, and all ages over 89.
4. Phone numbers;
5. Fax numbers;
6. Electronic mail addresses;
7. Social Security numbers;
8. Medical record numbers;
9. Health plan beneficiary numbers;
10. Account numbers;
11. Certificate/license numbers;
12. Vehicle identifiers and serial numbers, including license plate numbers;
13. Device identifiers and serial numbers;
14. Web Universal Resource Locators (URLs);
15. Internet Protocol (IP) address numbers;
16. Biometric identifiers, including finger and voice prints;
17. Full face photographic images and any comparable images; and
18. Any other unique identifying number, characteristic, or code.”

Please detect HIPAA identifiers in a step-by-step fashion. First, internally identify all named entities. Then, determine and output which of those entities are part of the 18 HIPAA identifiers.

Now you detect HIPAA identifiers, please explain your thinking using this format:

Rationale:
<your thinking>

Final Answer:
<List of any HIPAA identifiers found or write \"No HIPAA identifiers in the text\">

Here is the text to consider:

"

/-- Everything of the f-string before `{text_input}`: the fixed template text
followed by the opening `---` delimiter line. -/
def promptHead : String := promptBody ++ "---\n"

/-- Everything of the f-string after `{text_input}`: the closing `---`
delimiter line. -/
def promptTail : String := "\n---\n"

/-- The `prompt = f"""..."""` assignment in `detect_hipaa_identifiers`:
the fixed template with `text_input` interpolated between the `---` lines. -/
def buildPrompt (text_input : String) : String :=
  promptHead ++ text_input ++ promptTail

/-- The literal part of the diagnostic f-string in the `except` branch of
`detect_hipaa_identifiers`, before the interpolated `{e}`. -/
def apiErrorHead : String :=
  "Error: Could not contact the AI model. This might be due to a rate limit or other API issue. Please try again later. Details: "

/-- The full diagnostic string built in the `except` branch:
`f"Error: ... Details: {e}"`. -/
def apiErrorMessage (e : String) : String := apiErrorHead ++ e

/-- Observable process state: the log of prompts sent to the external
generative-text service, one entry per outbound call. -/
structure World where
  calls : List String
deriving DecidableEq

/-- `model.generate_content(prompt)`: performs one outbound call, appending
the prompt to the call log, and yields the service's outcome
(response text, or the exception's rendering). -/
def generate_content (svc : String → Except String String) (prompt : String)
    (w : World) : Except String String × World :=
  (svc prompt, ⟨w.calls ++ [prompt]⟩)

/-- `detect_hipaa_identifiers(text_input)`: builds the prompt, makes one call;
on success returns `response.text.strip()`, on any exception returns the
diagnostic string.  Returns the result string plus the updated call log. -/
def detect_hipaa_identifiers (svc : String → Except String String)
    (text_input : String) (w : World) : String × World :=
  let prompt := buildPrompt text_input
  match generate_content svc prompt w with
  | (Except.ok t, w2) => (pyStrip t, w2)
  | (Except.error e, w2) => (apiErrorMessage e, w2)

/-- What the button handler renders: `st.warning(...)` or `st.markdown(result)`. -/
inductive Display where
  | warning (msg : String)
  | result (text : String)
deriving DecidableEq

/-- The argument of `st.warning` in the handler's `else` branch. -/
def warningMessage : String := "Please enter some text to analyze."

/-- The `if st.button(...)` body: Python's
`if user_input and user_input.strip():` invokes `detect_hipaa_identifiers`
and renders the result; otherwise it only warns. -/
def buttonHandler (svc : String → Except String String) (user_input : String)
    (w : World) : Display × World :=
  if user_input ≠ "" ∧ pyStrip user_input ≠ "" then
    let r := detect_hipaa_identifiers svc user_input w
    (Display.result r.1, r.2)
  else
    (Display.warning warningMessage, w)

/-- The `st.error` message shown when reading the credential fails. -/
def configErrorMessage : String :=
  "Your Google API key is missing or invalid. Please create a `.streamlit/secrets.toml` file with your key."

/-- Outcome of the startup guard around `genai.configure`. -/
inductive Startup where
  | started (apiKey : String)
  | halted (msg : String)
deriving DecidableEq

/-- The `try: genai.configure(api_key=st.secrets["google_api_key"]) except ...`
guard: `some k` models the secret store yielding a credential, `none` models
the lookup raising `KeyError`/`AttributeError` (credential absent or the
secrets source malformed), in which case `st.error` + `st.stop()` run. -/
def startupCheck (secretKey : Option String) : Startup :=
  match secretKey with
  | some k => Startup.started k
  | none => Startup.halted configErrorMessage

/-- One whole script run: after `st.stop()` no UI action is reachable
(`none`); otherwise the button handler runs. -/
def runApp (secretKey : Option String) (svc : String → Except String String)
    (user_input : String) (w : World) : Option (Display × World) :=
  match startupCheck secretKey with
  | Startup.started _ => some (buttonHandler svc user_input w)
  | Startup.halted _ => none

/-- Decomposition of `pyStrip`: the original string is an all-whitespace part,
then the stripped string, then an all-whitespace part. -/
theorem pyStrip_decomposition (s : String) :
    ∃ a b : List Char, s.data = a ++ (pyStrip s).data ++ b ∧
      a.all isPyWhitespace ∧ b.all isPyWhitespace := by
  refine ⟨s.data.takeWhile isPyWhitespace,
    ((s.data.dropWhile isPyWhitespace).reverse.takeWhile isPyWhitespace).reverse,
    ?_, ?_, ?_⟩
  · have h1 := List.takeWhile_append_dropWhile isPyWhitespace s.data
    have h2 := List.takeWhile_append_dropWhile isPyWhitespace
      (s.data.dropWhile isPyWhitespace).reverse
    have h3 : s.data.dropWhile isPyWhitespace =
        ((s.data.dropWhile isPyWhitespace).reverse.dropWhile isPyWhitespace).reverse ++
        ((s.data.dropWhile isPyWhitespace).reverse.takeWhile isPyWhitespace).reverse := by
      conv_lhs => rw [← List.reverse_reverse (s.data.dropWhile isPyWhitespace), ← h2]
      rw [List.reverse_append]
    conv_lhs => rw [← h1, h3]
    rw [← List.append_assoc]
    rfl
  · exact List.all_takeWhile
  · rw [List.all_reverse]; exact List.all_takeWhile

/-- C1: for every non-empty input string `s`, the prompt built by
`detect_hipaa_identifiers` contains `s` as an exact contiguous substring,
placed between the `---` delimiter lines of the fixed template. -/
theorem C1_prompt_contains_input (s : String) (_h : s ≠ "") :
    ∃ a b : String, buildPrompt s = a ++ s ++ b ∧
      (∃ a0, a = a0 ++ "---\n") ∧ (∃ b0, b = "\n---" ++ b0) := by
  refine ⟨promptHead, promptTail, rfl, ⟨promptBody, rfl⟩, ⟨"\n", by decide⟩⟩

/-- Witness for C1 at the concrete input `"x"`. -/
theorem C1_witness :
    ∃ a b : String, buildPrompt "x" = a ++ "x" ++ b ∧
      (∃ a0, a = a0 ++ "---\n") ∧ (∃ b0, b = "\n---" ++ b0) :=
  C1_prompt_contains_input "x" (by decide)

/-- C2: whenever the service call raises (is modelled by `Except.error e`),
`detect_hipaa_identifiers` still returns a string; it begins with `"Error:"`
and contains the underlying error detail `e` as a substring. -/
theorem C2_error_diagnostic (svc : String → Except String String) (t e : String)
    (w : World) (h : svc (buildPrompt t) = Except.error e) :
    (∃ r, (detect_hipaa_identifiers svc t w).1 = "Error:" ++ r) ∧
    (∃ a b, (detect_hipaa_identifiers svc t w).1 = a ++ e ++ b) := by
  have hres : (detect_hipaa_identifiers svc t w).1 = apiErrorMessage e := by
    simp [detect_hipaa_identifiers, generate_content, h]
  have hsplit : apiErrorHead = "Error:" ++
      " Could not contact the AI model. This might be due to a rate limit or other API issue. Please try again later. Details: " := by
    decide
  constructor
  · refine ⟨" Could not contact the AI model. This might be due to a rate limit or other API issue. Please try again later. Details: " ++ e, ?_⟩
    rw [hres]
    show apiErrorHead ++ e = _
    rw [hsplit, String.append_assoc]
  · refine ⟨apiErrorHead, "", ?_⟩
    rw [hres]
    show apiErrorHead ++ e = (apiErrorHead ++ e) ++ ""
    rw [String.append_empty]

/-- Witness for C2 with a concrete failing service. -/
theorem C2_witness :
    (∃ r, (detect_hipaa_identifiers (fun _ => Except.error "boom") "x" ⟨[]⟩).1 =
      "Error:" ++ r) ∧
    (∃ a b, (detect_hipaa_identifiers (fun _ => Except.error "boom") "x" ⟨[]⟩).1 =
      a ++ "boom" ++ b) :=
  C2_error_diagnostic (fun _ => Except.error "boom") "x" "boom" ⟨[]⟩ rfl

/-- C3: when the service call succeeds with response text `R`,
`detect_hipaa_identifiers` returns exactly `R` with leading and trailing
whitespace removed (`R.strip()`), and nothing else is changed: `R` is an
all-whitespace part, then the returned text, then an all-whitespace part. -/
theorem C3_success_returns_trimmed (svc : String → Except String String)
    (t R : String) (w : World) (h : svc (buildPrompt t) = Except.ok R) :
    (detect_hipaa_identifiers svc t w).1 = pyStrip R ∧
    ∃ a b : List Char, R.data = a ++ (pyStrip R).data ++ b ∧
      a.all isPyWhitespace ∧ b.all isPyWhitespace := by
  constructor
  · simp [detect_hipaa_identifiers, generate_content, h]
  · exact pyStrip_decomposition R

/-- Witness for C3 with the concrete response `" R "`. -/
theorem C3_witness :
    (detect_hipaa_identifiers (fun _ => Except.ok " R ") "x" ⟨[]⟩).1 = pyStrip " R " ∧
    ∃ a b : List Char, (" R " : String).data = a ++ (pyStrip " R ").data ++ b ∧
      a.all isPyWhitespace ∧ b.all isPyWhitespace :=
  C3_success_returns_trimmed (fun _ => Except.ok " R ") "x" " R " ⟨[]⟩ rfl

/-- C4: on empty or whitespace-only input the button handler only shows the
warning; the call log is unchanged (zero outbound calls, so
`detect_hipaa_identifiers` is never invoked). -/
theorem C4_blank_input_warns (svc : String → Except String String)
    (input : String) (w : World) (h : input = "" ∨ pyStrip input = "") :
    buttonHandler svc input w = (Display.warning warningMessage, w) ∧
    ((buttonHandler svc input w).2).calls = w.calls := by
  have hneg : ¬ (input ≠ "" ∧ pyStrip input ≠ "") := by
    rcases h with h | h <;> simp [h]
  unfold buttonHandler
  rw [if_neg hneg]
  exact ⟨rfl, rfl⟩

/-- Witness for C4 at the whitespace-only input of a space, a tab and a
no-break space U+00A0 (whitespace for Python's `strip()`, so the handler
warns there and makes no call). -/
theorem C4_witness :
    buttonHandler (fun _ => Except.ok "R") " \t\u00A0" (World.mk []) =
      (Display.warning warningMessage, World.mk []) ∧
    ((buttonHandler (fun _ => Except.ok "R") " \t\u00A0" (World.mk [])).2).calls =
      (World.mk []).calls :=
  C4_blank_input_warns (fun _ => Except.ok "R") " \t\u00A0" (World.mk [])
    (Or.inr (by decide))

/-- C5: when the credential lookup fails at startup (absent key or malformed
secrets source), the app halts with the configuration-error message and no UI
action is reachable: a whole run produces no display, for any service, input
and state. -/
theorem C5_missing_credential_halts (svc : String → Except String String)
    (input : String) (w : World) :
    startupCheck none = Startup.halted configErrorMessage ∧
    runApp none svc input w = none :=
  ⟨rfl, rfl⟩

/-- Counterexample to C6 as stated: a successful service call can return the
empty response text, and then the displayed result is the empty string. -/
theorem C6_counterexample :
    (fun _ : String => (Except.ok "" : Except String String)) (buildPrompt "x") =
      Except.ok "" ∧
    (detect_hipaa_identifiers (fun _ => Except.ok "") "x" ⟨[]⟩).1 = "" :=
  ⟨rfl, by decide⟩

/-- C6 (amended): on a successful invocation the displayed result is
non-empty provided the service's response text does not strip to the empty
string (i.e. it contains some non-whitespace character). -/
theorem C6_amended_nonempty_on_success (svc : String → Except String String)
    (t R : String) (w : World) (h : svc (buildPrompt t) = Except.ok R)
    (hR : pyStrip R ≠ "") :
    (detect_hipaa_identifiers svc t w).1 ≠ "" := by
  have hres : (detect_hipaa_identifiers svc t w).1 = pyStrip R := by
    simp [detect_hipaa_identifiers, generate_content, h]
  rw [hres]
  exact hR

/-- Witness for the amended C6 with the concrete response `"R"`. -/
theorem C6_witness :
    (detect_hipaa_identifiers (fun _ => Except.ok "R") "x" ⟨[]⟩).1 ≠ "" :=
  C6_amended_nonempty_on_success (fun _ => Except.ok "R") "x" "R" ⟨[]⟩ rfl (by decide)

/-- C7: the prompt builder is pure and deterministic: equal inputs give equal
prompts, the empty string is accepted (yielding the bare template), and
within the flow the prompt sent to the service is `buildPrompt t` regardless
of any prior state. -/
theorem C7_builder_pure :
    (∀ s t : String, s = t → buildPrompt s = buildPrompt t) ∧
    buildPrompt "" = promptHead ++ promptTail ∧
    (∀ (svc : String → Except String String) (t : String) (w : World),
      ((detect_hipaa_identifiers svc t w).2).calls = w.calls ++ [buildPrompt t]) := by
  refine ⟨fun s t h => by rw [h], by simp [buildPrompt], fun svc t w => ?_⟩
  cases hsvc : svc (buildPrompt t) <;>
    simp [detect_hipaa_identifiers, generate_content, hsvc]

/-- Witness for C7, discharging the equal-inputs hypothesis at `"a"`. -/
theorem C7_witness : buildPrompt "a" = buildPrompt "a" :=
  C7_builder_pure.1 "a" "a" rfl

/-- C8: running the button handler a second time with the same input and the
same service, starting from the state the first run produced, displays the
same output as the first run: no hidden state influences the display. -/
theorem C8_flow_idempotent (svc : String → Except String String)
    (input : String) (w : World) :
    (buttonHandler svc input ((buttonHandler svc input w).2)).1 =
      (buttonHandler svc input w).1 := by
  have key : ∀ w1 w2 : World,
      (buttonHandler svc input w1).1 = (buttonHandler svc input w2).1 := by
    intro w1 w2
    by_cases hc : input ≠ "" ∧ pyStrip input ≠ ""
    · cases hsvc : svc (buildPrompt input) <;>
        simp [buttonHandler, detect_hipaa_identifiers, generate_content, hc, hsvc]
    · simp [buttonHandler, hc]
  exact key _ _

/-- C9: for non-empty, non-whitespace input, one press of the button makes
exactly one outbound call — the prompt for the input is appended once to the
call log — for every service behaviour (success or failure, so no retries)
and every prior log (so no caching of repeated inputs). -/
theorem C9_exactly_one_call (svc : String → Except String String)
    (input : String) (w : World) (h1 : input ≠ "") (h2 : pyStrip input ≠ "") :
    ((buttonHandler svc input w).2).calls = w.calls ++ [buildPrompt input] := by
  cases hsvc : svc (buildPrompt input) <;>
    simp [buttonHandler, detect_hipaa_identifiers, generate_content, h1, h2, hsvc]

/-- Witness for C9 with a failing service and a non-empty prior log: exactly
one call is appended even then. -/
theorem C9_witness :
    ((buttonHandler (fun _ => Except.error "b") "x" (World.mk ["old"])).2).calls =
      (World.mk ["old"]).calls ++ [buildPrompt "x"] :=
  C9_exactly_one_call (fun _ => Except.error "b") "x" (World.mk ["old"])
    (by decide) (by decide)

/-- C10: the built prompt is `P ++ x ++ S` for fixed strings `P` and `S`
independent of the input; moreover an input containing the `---` marker makes
the delimited region ambiguous: one prompt admits two distinct readings of
the text enclosed between the opening delimiter and a following `\n---`. -/
theorem C10_fixed_affix_template :
    (∃ P S : String, ∀ x : String, buildPrompt x = P ++ x ++ S) ∧
    (∃ x u v : String, u ≠ v ∧
      (∃ b, buildPrompt x = promptHead ++ u ++ ("\n---" ++ b)) ∧
      (∃ b, buildPrompt x = promptHead ++ v ++ ("\n---" ++ b))) := by
  constructor
  · exact ⟨promptHead, promptTail, fun x => rfl⟩
  · refine ⟨"u\n---\nv", "u", "u\n---\nv", by decide,
      ⟨"\nv\n---\n", ?_⟩, ⟨"\n", ?_⟩⟩
    · show (promptHead ++ "u\n---\nv") ++ promptTail =
        (promptHead ++ "u") ++ ("\n---" ++ "\nv\n---\n")
      rw [String.append_assoc, String.append_assoc]
      congr 1
    · show (promptHead ++ "u\n---\nv") ++ promptTail =
        (promptHead ++ "u\n---\nv") ++ ("\n---" ++ "\n")
      rw [String.append_assoc, String.append_assoc]
      congr 1
